import Mathlib

/-!
Verification of the battery-state machine, aggregator, scheduler and option
validation of `src/batsignal.c` (a battery level monitor).  The C program's
global state and control loop are shallowly embedded: the loop body of `main`
(classification + dispatch decision + delay computation) becomes the pure
function `stepLoop`, the per-device fold of `update_batteries` becomes
`update_batteries` over a list of `DeviceRead`s, `validate_options` and the
option-handling cases of `parse_args` are translated directly.  C `int`
values that are provably nonnegative in the relevant paths are modelled as
`Nat`; the computed sleep duration is modelled as `Int` so that sign claims
about the adaptive-delay arithmetic are faithful; `validate_options` keeps
`Int` inputs because the C code explicitly tests for negative values.
-/

namespace Batsignal

/-- The battery states, mirroring the `STATE_*` defines of batsignal.c
(`STATE_AC`, `STATE_DISCHARGING`, `STATE_WARNING`, `STATE_CRITICAL`,
`STATE_DANGER`, `STATE_FULL`). -/
inductive BState
  | AC
  | Discharging
  | Warning
  | Critical
  | Danger
  | Full
deriving DecidableEq, Repr

/-- The configuration values consulted by the main loop.  In the C source
these are the globals `warning`, `critical`, `danger`, `full`, `multiplier`,
`fixed`, `show_charging_msg`, and whether `dangercmd` is a nonempty string
(`dangercmd[0] != '\0'`). -/
structure Config where
  warning : Nat
  critical : Nat
  danger : Nat
  full : Nat
  multiplier : Nat
  fixed : Bool
  show_charging_msg : Bool
  dangercmd_set : Bool
deriving DecidableEq, Repr

/-- One cycle's aggregated battery snapshot: the globals `battery_level`,
`battery_discharging`, `battery_full` as set by `update_batteries`. -/
structure Snapshot where
  battery_level : Nat
  battery_discharging : Bool
  battery_full : Bool
deriving DecidableEq, Repr

/-- The externally visible dispatch decisions a loop iteration can make:
running `dangercmd`, one of the `update_notification` calls (distinguished by
message), or `notify_notification_close`. -/
inductive Action
  | dangerCmd
  | notifyCritical
  | notifyWarning
  | notifyFull
  | notifyCharging
  | notifyDischarging
  | closeNote
deriving DecidableEq, Repr

/-- Result of one loop iteration: the new `battery_state`, the dispatch
decisions taken, and the computed sleep `duration` (C `unsigned int duration`;
modelled as `Int` to capture the signed arithmetic of the adaptive formula,
which is proved nonnegative below). -/
structure StepResult where
  state : BState
  actions : List Action
  duration : Int
deriving DecidableEq, Repr

/-- One iteration of the `for(;;)` loop body of `main` (batsignal.c lines
554-615), after `update_batteries` has produced the snapshot `snap`:
`previous_discharging_status` is `battery_discharging` from the previous
cycle and `battery_state` is the carried-over state.  Mirrors the branching
verbatim: the discharging path checks danger, then critical, then warning
(each guarded by its threshold being nonzero), shortening the delay in the
warning and plain-discharging branches when `fixed` is unset; the charging
path checks the full threshold against the previous state, then the
charging-message edge, else closes the notification. -/
def stepLoop (cfg : Config) (snap : Snapshot) (previous_discharging_status : Bool)
    (battery_state : BState) : StepResult :=
  let duration : Int := (cfg.multiplier : Int)
  if snap.battery_discharging then
    if cfg.danger ≠ 0 ∧ snap.battery_level ≤ cfg.danger then
      if battery_state ≠ BState.Danger then
        ⟨BState.Danger, if cfg.dangercmd_set then [Action.dangerCmd] else [], duration⟩
      else
        ⟨BState.Danger, [], duration⟩
    else if cfg.critical ≠ 0 ∧ snap.battery_level ≤ cfg.critical then
      if battery_state ≠ BState.Critical then
        ⟨BState.Critical, [Action.notifyCritical], duration⟩
      else
        ⟨BState.Critical, [], duration⟩
    else if cfg.warning ≠ 0 ∧ snap.battery_level ≤ cfg.warning then
      let duration :=
        if ¬cfg.fixed then ((snap.battery_level : Int) - (cfg.critical : Int)) * (cfg.multiplier : Int)
        else duration
      if battery_state ≠ BState.Warning then
        ⟨BState.Warning, [Action.notifyWarning], duration⟩
      else
        ⟨BState.Warning, [], duration⟩
    else
      let acts :=
        if cfg.show_charging_msg ∧ snap.battery_discharging ≠ previous_discharging_status then
          [Action.notifyDischarging]
        else if battery_state = BState.Full then
          [Action.closeNote]
        else []
      let duration :=
        if ¬cfg.fixed then ((snap.battery_level : Int) - (cfg.warning : Int)) * (cfg.multiplier : Int)
        else duration
      ⟨BState.Discharging, acts, duration⟩
  else
    if (cfg.full ≠ 0 ∧ battery_state ≠ BState.Full) ∧
        (cfg.full ≤ snap.battery_level ∨ snap.battery_full) then
      ⟨BState.Full, [Action.notifyFull], duration⟩
    else if cfg.show_charging_msg ∧ snap.battery_discharging ≠ previous_discharging_status then
      ⟨BState.AC, [Action.notifyCharging], duration⟩
    else
      ⟨BState.AC, [Action.closeNote], duration⟩

/-- The dispatches of a cycle that actually fire a notification or the danger
command (closing an existing notification is a dismissal, not a dispatch). -/
def fired (acts : List Action) : List Action :=
  acts.filter (fun a => a ≠ Action.closeNote)

/-- Iterated loop: starting from carried state `s` and previous discharging
flag `d`, process each successive snapshot with `stepLoop`, threading the new
state and the snapshot's discharging flag exactly as `main` does
(`previous_discharging_status = battery_discharging; update_batteries();`). -/
def runLoop (cfg : Config) : BState → Bool → List Snapshot → List StepResult
  | _, _, [] => []
  | s, d, snap :: rest =>
    let r := stepLoop cfg snap d s
    r :: runLoop cfg r.state snap.battery_discharging rest

/-- Default configuration from the globals of batsignal.c: `warning = 15`,
`critical = 5`, `danger = 2`, `full = 0`, `multiplier = 60`, `fixed = false`,
`show_charging_msg = false`, `dangercmd = ""`. -/
def defaultConfig : Config :=
  ⟨15, 5, 2, 0, 60, false, false, false⟩

/-- Battery status strings read from `/sys/.../status` that the code compares
against (`POWER_SUPPLY_DISCHARGING`, `POWER_SUPPLY_FULL`, anything else). -/
inductive PsStatus
  | statusFull
  | statusDischarging
  | statusOther
deriving DecidableEq, Repr

/-- One device's raw attribute reads for a cycle.  `none` models a file that
is missing or unreadable (`fopen` returning `NULL` or `fscanf` returning 0).
`fullVal` is only consulted when the battery exposes a now/full pair; in
percentage-only mode (`full_attribute == NULL`) the code substitutes 100. -/
structure DeviceRead where
  status : Option PsStatus
  nowVal : Option Nat
  fullVal : Option Nat
deriving DecidableEq, Repr

/-- The accumulator of `update_batteries`: the globals `battery_discharging`
(initialised false), `battery_full` (initialised true), `energy_now` and
`energy_full` (initialised 0). -/
structure BatAcc where
  battery_discharging : Bool
  battery_full : Bool
  energy_now : Nat
  energy_full : Nat
deriving DecidableEq, Repr

/-- The values `update_batteries` leaves in the globals on return. -/
structure AggResult where
  battery_level : Nat
  battery_discharging : Bool
  battery_full : Bool
  energy_now : Nat
  energy_full : Nat
deriving DecidableEq, Repr

/-- The C expression `round(100.0 * energy_now / energy_full)` on exact
(real) arithmetic: C `round` rounds half away from zero, which for these
nonnegative arguments is `floor(100*now/full + 1/2) = (200*now + full) / (2*full)`
in natural-number division.  (At `eFull = 0` the C expression divides by
zero; Lean's `Nat` division then yields the junk value 0 — see the
aggregation-error analysis below.) -/
def roundPct (eNow eFull : Nat) : Nat :=
  (200 * eNow + eFull) / (2 * eFull)

/-- The body of the per-battery loop of `update_batteries` (batsignal.c lines
209-255) for one device: a failed status read is fatal when
`battery_required`, else the device is skipped; otherwise the discharging/full
flags are folded in, then the now attribute is read (fatal/skip on failure),
then the full attribute (or the constant 100 in percentage-only mode), and
the sums are updated.  Note the flags are updated before the now read, so a
device whose status was readable still contributes its flags even when its
energy values are skipped — exactly as in the C control flow. -/
def updateOne (battery_required percentOnly : Bool) (acc : BatAcc) (r : DeviceRead) :
    Except Unit BatAcc :=
  match r.status with
  | none => if battery_required then Except.error () else Except.ok acc
  | some st =>
    let acc : BatAcc :=
      { acc with
        battery_discharging := acc.battery_discharging || (st = PsStatus.statusDischarging),
        battery_full := acc.battery_full && (st = PsStatus.statusFull) }
    match r.nowVal with
    | none => if battery_required then Except.error () else Except.ok acc
    | some tmp_now =>
      match (if percentOnly then some 100 else r.fullVal) with
      | none => if battery_required then Except.error () else Except.ok acc
      | some tmp_full =>
        Except.ok
          { acc with
            energy_now := acc.energy_now + tmp_now,
            energy_full := acc.energy_full + tmp_full }

/-- `update_batteries` (batsignal.c lines 192-258): reset the accumulator,
fold every configured battery through `updateOne`, then set
`battery_level = round(100.0 * energy_now / energy_full)`.  `Except.error`
models the fatal `err(EXIT_FAILURE, ...)` exits taken when
`battery_required` is set; `percentOnly` models `full_attribute == NULL`
(decided once from the first battery by `set_attributes`). -/
def update_batteries (battery_required percentOnly : Bool) (reads : List DeviceRead) :
    Except Unit AggResult :=
  match reads.foldlM (updateOne battery_required percentOnly) ⟨false, true, 0, 0⟩ with
  | Except.error e => Except.error e
  | Except.ok acc =>
    Except.ok
      ⟨roundPct acc.energy_now acc.energy_full, acc.battery_discharging,
        acc.battery_full, acc.energy_now, acc.energy_full⟩

/-- A device read on which none of the fatal/skip paths of `updateOne` are
taken: the status and now attributes are readable and, unless in
percentage-only mode, the full attribute is too. -/
def readableRead (percentOnly : Bool) (r : DeviceRead) : Bool :=
  r.status.isSome && r.nowVal.isSome && (percentOnly || r.fullVal.isSome)

/-- Sum of the per-device "now" contributions of a read list. -/
def sumNow (reads : List DeviceRead) : Nat :=
  (reads.map (fun r => r.nowVal.getD 0)).sum

/-- Sum of the per-device "full" contributions: the full attribute, or 100
per device in percentage-only mode. -/
def sumFullContrib (percentOnly : Bool) (reads : List DeviceRead) : Nat :=
  (reads.map (fun r => if percentOnly then 100 else r.fullVal.getD 0)).sum

/-- `validate_options` (batsignal.c lines 381-406), as the predicate "no
`errx(EXIT_FAILURE, ...)` is taken".  Inputs stay `Int` because the C code
tests the `int` globals for negative values.  The chain mirrors the source
order: range checks on `warning`, `critical`, `danger`, `full`, `multiplier`,
then the two ordering checks, then the full-level check against `lowlvl`
(which starts at `danger` and becomes `warning ? warning : critical` when
either is nonzero). -/
def validate_options (warning critical danger full multiplier : Int) : Bool :=
  if warning > 100 ∨ warning < 0 then false
  else if critical > 100 ∨ critical < 0 then false
  else if danger > 100 ∨ danger < 0 then false
  else if full > 100 ∨ full < 0 then false
  else if multiplier < 0 ∨ multiplier > 3600 then false
  else if warning ≠ 0 ∧ warning ≤ critical then false
  else if critical ≠ 0 ∧ critical ≤ danger then false
  else
    let lowlvl : Int :=
      if warning ≠ 0 ∨ critical ≠ 0 then (if warning ≠ 0 then warning else critical)
      else danger
    if full ≠ 0 ∧ full ≤ lowlvl then false else true

/-- The command-line options of `parse_args` (batsignal.c lines 289-379) that
touch the configuration fields the core claims are about; `other` stands for
every remaining case (messages, names, icons, ...), which leave these fields
unchanged. -/
inductive Opt
  | w (lvl : Nat)
  | c (lvl : Nat)
  | d (lvl : Nat)
  | f (lvl : Nat)
  | p
  | m (plus : Bool) (secs : Nat)
  | other
deriving DecidableEq, Repr

/-- One `switch` case of `parse_args`: `-w`, `-c`, `-d` set their threshold;
`-f LEVEL` sets `full` AND `fixed = true`; `-p` sets `show_charging_msg` AND
`fixed = true`; `-m` sets the multiplier, also setting `fixed` when the
argument is prefixed with `+`. -/
def applyOpt (cfg : Config) : Opt → Config
  | Opt.w lvl => { cfg with warning := lvl }
  | Opt.c lvl => { cfg with critical := lvl }
  | Opt.d lvl => { cfg with danger := lvl }
  | Opt.f lvl => { cfg with full := lvl, fixed := true }
  | Opt.p => { cfg with show_charging_msg := true, fixed := true }
  | Opt.m plus secs =>
    if plus then { cfg with fixed := true, multiplier := secs }
    else { cfg with multiplier := secs }
  | Opt.other => cfg

/-- `parse_args` as a fold of the option list over the configuration. -/
def parse_args (cfg : Config) (opts : List Opt) : Config :=
  opts.foldl applyOpt cfg

/-- The spec claim's reading of "the highest nonzero of warning/critical":
the larger when both are nonzero, the nonzero one when only one is, and
(vacuously, never consulted by the claim) `critical` when both are zero. -/
def highestNonzero (warning critical : Int) : Int :=
  if warning ≠ 0 then (if critical ≠ 0 then max warning critical else warning)
  else critical

/-- The startup-validation failure condition exactly as the claim states it
(written from the spec's words, for comparison against `validate_options`):
a threshold outside 0..100, warning and critical both nonzero with
`warning <= critical`, critical and danger both nonzero with
`critical <= danger`, full nonzero and not exceeding the highest nonzero of
warning/critical, or the poll interval outside [0, 3600]. -/
def claimRejects (warning critical danger full multiplier : Int) : Prop :=
  (warning < 0 ∨ 100 < warning) ∨ (critical < 0 ∨ 100 < critical) ∨
  (danger < 0 ∨ 100 < danger) ∨ (full < 0 ∨ 100 < full) ∨
  (multiplier < 0 ∨ 3600 < multiplier) ∨
  (warning ≠ 0 ∧ critical ≠ 0 ∧ warning ≤ critical) ∨
  (critical ≠ 0 ∧ danger ≠ 0 ∧ critical ≤ danger) ∨
  (full ≠ 0 ∧ (warning ≠ 0 ∨ critical ≠ 0) ∧ full ≤ highestNonzero warning critical)

/-- The claim's failure condition amended by the one case the code adds:
when warning and critical are both zero, `lowlvl` keeps its initialisation
`danger`, so a nonzero full not exceeding danger is also rejected. -/
def amendedRejects (warning critical danger full multiplier : Int) : Prop :=
  claimRejects warning critical danger full multiplier ∨
  (full ≠ 0 ∧ warning = 0 ∧ critical = 0 ∧ full ≤ danger)

/-- Helper: a cycle whose computed state equals the carried state and whose
discharging flag did not flip dispatches nothing (at most a notification
close). -/
theorem stepLoop_steady (cfg : Config) (snap : Snapshot) (pd : Bool) (ps : BState)
    (hstate : (stepLoop cfg snap pd ps).state = ps)
    (hflag : snap.battery_discharging = pd) :
    fired (stepLoop cfg snap pd ps).actions = [] := by
  simp only [stepLoop] at *
  split_ifs at * <;> simp_all [fired]

/-- Helper: no `parse_args` case ever clears the `fixed` flag. -/
theorem applyOpt_keeps_fixed (cfg : Config) (o : Opt) (h : cfg.fixed = true) :
    (applyOpt cfg o).fixed = true := by
  cases o <;> simp only [applyOpt] <;> first | exact h | rfl | (split <;> simp [h])

/-- Helper: `fixed` stays set across the whole option fold. -/
theorem parse_args_keeps_fixed (opts : List Opt) (cfg : Config) (h : cfg.fixed = true) :
    (parse_args cfg opts).fixed = true := by
  induction opts generalizing cfg with
  | nil => exact h
  | cons o rest ih => exact ih (applyOpt cfg o) (applyOpt_keeps_fixed cfg o h)

/-- Helper: with `fixed` set, every branch of the loop body leaves
`duration = multiplier`. -/
theorem stepLoop_fixed_duration (cfg : Config) (hf : cfg.fixed = true)
    (snap : Snapshot) (pd : Bool) (ps : BState) :
    (stepLoop cfg snap pd ps).duration = (cfg.multiplier : Int) := by
  simp only [stepLoop, hf]
  split_ifs <;> simp_all

/-- Helper: for a positive denominator, the natural-division formula of
`roundPct` is round-half-away-from-zero of the exact rational
`100 * n / f` (these arguments are nonnegative, so that equals
`floor(100*n/f + 1/2)`). -/
theorem roundPct_eq_floor (n f : Nat) (hf : 0 < f) :
    roundPct n f = ⌊100 * (n : ℚ) / (f : ℚ) + 1/2⌋₊ := by
  have harg : 100 * (n : ℚ) / (f : ℚ) + 1/2 = ((200 * n + f : ℕ) : ℚ) / ((2 * f : ℕ) : ℚ) := by
    have hfq : ((f : ℚ)) ≠ 0 := by positivity
    push_cast
    field_simp
    ring
  rw [roundPct, harg, Nat.floor_div_nat, Nat.floor_natCast]

/-- Helper: the rounded percentage is at most 100 when the numerator does
not exceed the (positive) denominator. -/
theorem roundPct_le_100 (n f : Nat) (hf : 0 < f) (hle : n ≤ f) : roundPct n f ≤ 100 := by
  have h : (200 * n + f) / (2 * f) < 101 := by
    rw [Nat.div_lt_iff_lt_mul (by omega)]
    omega
  simpa [roundPct] using Nat.lt_succ_iff.mp h

/-- Helper: over fully readable device reads, the aggregation fold succeeds
and accumulates exactly the summed now-values and full-contributions. -/
theorem foldlM_readable (required percentOnly : Bool) :
    ∀ (reads : List DeviceRead) (acc : BatAcc),
      (∀ r ∈ reads, readableRead percentOnly r = true) →
      ∃ d f, reads.foldlM (updateOne required percentOnly) acc =
        Except.ok ⟨d, f, acc.energy_now + sumNow reads,
          acc.energy_full + sumFullContrib percentOnly reads⟩ := by
  intro reads
  induction reads with
  | nil =>
    intro acc _
    exact ⟨acc.battery_discharging, acc.battery_full, rfl⟩
  | cons r rest ih =>
    intro acc hr
    have hhead := hr r (List.mem_cons_self r rest)
    have htail : ∀ x ∈ rest, readableRead percentOnly x = true :=
      fun x hx => hr x (List.mem_cons_of_mem r hx)
    simp only [readableRead, Bool.and_eq_true, Bool.or_eq_true, Option.isSome_iff_exists] at hhead
    obtain ⟨⟨⟨st, hst⟩, n, hn⟩, hfl⟩ := hhead
    obtain ⟨rs, rn, rf⟩ := r
    simp only at hst hn hfl
    subst hst hn
    cases hpo : percentOnly with
    | true =>
      subst hpo
      obtain ⟨d, f, hfold⟩ := ih
        ({ acc with
            battery_discharging := acc.battery_discharging || (st = PsStatus.statusDischarging),
            battery_full := acc.battery_full && (st = PsStatus.statusFull),
            energy_now := acc.energy_now + n,
            energy_full := acc.energy_full + 100 }) htail
      exact ⟨d, f, hfold.trans (by simp [sumNow, sumFullContrib, Nat.add_assoc])⟩
    | false =>
      subst hpo
      rcases hfl with hbad | ⟨fl, hflv⟩
      · exact absurd hbad (by simp)
      subst hflv
      obtain ⟨d, f, hfold⟩ := ih
        ({ acc with
            battery_discharging := acc.battery_discharging || (st = PsStatus.statusDischarging),
            battery_full := acc.battery_full && (st = PsStatus.statusFull),
            energy_now := acc.energy_now + n,
            energy_full := acc.energy_full + fl }) htail
      exact ⟨d, f, hfold.trans (by simp [sumNow, sumFullContrib, Nat.add_assoc])⟩

/-- C1: for every snapshot with discharging true and every configuration
with nonzero `danger < critical < warning`, classification selects exactly
one of DANGER/CRITICAL/WARNING/DISCHARGING by strict priority: DANGER if
`level <= danger`, else CRITICAL if `level <= critical`, else WARNING if
`level <= warning`, else DISCHARGING. -/
theorem C1_discharging_priority (cfg : Config) (snap : Snapshot) (pd : Bool) (ps : BState)
    (h1 : 0 < cfg.danger) (h2 : cfg.danger < cfg.critical) (h3 : cfg.critical < cfg.warning)
    (hdis : snap.battery_discharging = true) :
    (stepLoop cfg snap pd ps).state =
      if snap.battery_level ≤ cfg.danger then BState.Danger
      else if snap.battery_level ≤ cfg.critical then BState.Critical
      else if snap.battery_level ≤ cfg.warning then BState.Warning
      else BState.Discharging := by
  simp only [stepLoop, hdis, if_true]
  split_ifs <;> first | rfl | (exfalso; omega)

/-- Witness for C1 at the default thresholds `warning=15, critical=5,
danger=2` on a discharging snapshot with level 4: state CRITICAL. -/
theorem C1_witness :
    0 < defaultConfig.danger ∧ defaultConfig.danger < defaultConfig.critical ∧
    defaultConfig.critical < defaultConfig.warning ∧
    (stepLoop defaultConfig ⟨4, true, false⟩ true BState.AC).state = BState.Critical :=
  ⟨by decide, by decide, by decide,
    (C1_discharging_priority defaultConfig ⟨4, true, false⟩ true BState.AC (by decide) (by decide)
      (by decide) rfl).trans (by decide)⟩

/-- C2: a threshold (warning, critical, danger, or full) configured as 0
never triggers its branch of the classifier: the computed state is never the
state guarded by a zero threshold. -/
theorem C2_zero_threshold_disabled (cfg : Config) (snap : Snapshot) (pd : Bool) (ps : BState) :
    (cfg.danger = 0 → (stepLoop cfg snap pd ps).state ≠ BState.Danger) ∧
    (cfg.critical = 0 → (stepLoop cfg snap pd ps).state ≠ BState.Critical) ∧
    (cfg.warning = 0 → (stepLoop cfg snap pd ps).state ≠ BState.Warning) ∧
    (cfg.full = 0 → (stepLoop cfg snap pd ps).state ≠ BState.Full) := by
  simp only [stepLoop]
  split_ifs <;> refine ⟨?_, ?_, ?_, ?_⟩ <;> intro h0 <;> simp_all

/-- Witness for C2 at `danger=0, critical=5, level=1, discharging=true`: the
state is not DANGER, and is in fact CRITICAL. -/
theorem C2_witness :
    (stepLoop ⟨15, 5, 0, 0, 60, false, false, false⟩ ⟨1, true, false⟩ true BState.AC).state ≠
      BState.Danger ∧
    (stepLoop ⟨15, 5, 0, 0, 60, false, false, false⟩ ⟨1, true, false⟩ true BState.AC).state =
      BState.Critical :=
  ⟨(C2_zero_threshold_disabled ⟨15, 5, 0, 0, 60, false, false, false⟩ ⟨1, true, false⟩ true
      BState.AC).1 rfl, by decide⟩

/-- C3: for every sequence of fully readable device readings whose summed
full-contributions are positive, aggregation succeeds, `energy_now` and
`energy_full` are the sums of the per-device now-values and
full-contributions (a percentage-only device contributing its percentage and
100), and the level equals `round(100 * energy_now / energy_full)` with
round-half-away-from-zero (equal to `floor(q + 1/2)` for these nonnegative
quotients `q`). -/
theorem C3_aggregate_level (required percentOnly : Bool) (reads : List DeviceRead)
    (hr : ∀ r ∈ reads, readableRead percentOnly r = true)
    (hpos : 0 < sumFullContrib percentOnly reads) :
    ∃ res, update_batteries required percentOnly reads = Except.ok res ∧
      res.energy_now = sumNow reads ∧
      res.energy_full = sumFullContrib percentOnly reads ∧
      res.battery_level =
        ⌊100 * (sumNow reads : ℚ) / (sumFullContrib percentOnly reads : ℚ) + 1/2⌋₊ := by
  obtain ⟨d, f, hfold⟩ := foldlM_readable required percentOnly reads ⟨false, true, 0, 0⟩ hr
  refine ⟨⟨roundPct (sumNow reads) (sumFullContrib percentOnly reads), d, f,
    sumNow reads, sumFullContrib percentOnly reads⟩, ?_, rfl, rfl, ?_⟩
  · simp [update_batteries, hfold]
  · exact roundPct_eq_floor _ _ hpos

/-- Witness for C3 on the spec's example, device A `(now=50, full=100)` and
device B `(now=30, full=100)`: level `round(100*80/200) = 40`. -/
theorem C3_witness :
    ∃ res, update_batteries false false
        [⟨some PsStatus.statusOther, some 50, some 100⟩,
          ⟨some PsStatus.statusOther, some 30, some 100⟩] = Except.ok res ∧
      res.battery_level = 40 := by
  obtain ⟨res, h1, h2, h3, h4⟩ := C3_aggregate_level false false
    [⟨some PsStatus.statusOther, some 50, some 100⟩,
      ⟨some PsStatus.statusOther, some 30, some 100⟩] (by decide) (by decide)
  refine ⟨res, h1, ?_⟩
  rw [h4, Nat.floor_eq_iff (by positivity)]
  norm_num [sumNow, sumFullContrib]

/-- C4 (code bug): the aggregation does NOT guard `energy_full == 0`.  With
`battery_required` unset and a single unreadable device, every read is
skipped, `update_batteries` returns normally (no fatal error path exists for
zero capacity), and `battery_level` is computed from
`round(100.0 * 0 / 0.0)` — NaN converted to int in the C code, i.e. garbage
(here visible as `Nat` division by zero yielding the junk level 0). -/
theorem C4_no_zero_capacity_guard :
    update_batteries false false [⟨none, none, none⟩] =
      Except.ok ⟨0, false, true, 0, 0⟩ ∧
    roundPct 0 0 = 0 :=
  ⟨rfl, rfl⟩

/-- C5: if `fixed` is not set, the delay is `(level - critical) * multiplier`
when the computed state is WARNING and `(level - warning) * multiplier` when
it is plain DISCHARGING, and `multiplier` unmodified in every other state;
when `fixed` is set or `multiplier` is 0 the delay is `multiplier`
unmodified. -/
theorem C5_scheduler_delay (cfg : Config) (snap : Snapshot) (pd : Bool) (ps : BState) :
    ((cfg.fixed = true ∨ cfg.multiplier = 0) →
      (stepLoop cfg snap pd ps).duration = (cfg.multiplier : Int)) ∧
    (cfg.fixed = false →
      ((stepLoop cfg snap pd ps).state = BState.Warning →
        (stepLoop cfg snap pd ps).duration =
          ((snap.battery_level : Int) - (cfg.critical : Int)) * (cfg.multiplier : Int)) ∧
      ((stepLoop cfg snap pd ps).state = BState.Discharging →
        (stepLoop cfg snap pd ps).duration =
          ((snap.battery_level : Int) - (cfg.warning : Int)) * (cfg.multiplier : Int)) ∧
      ((stepLoop cfg snap pd ps).state ≠ BState.Warning →
        (stepLoop cfg snap pd ps).state ≠ BState.Discharging →
        (stepLoop cfg snap pd ps).duration = (cfg.multiplier : Int))) := by
  simp only [stepLoop]
  split_ifs <;> simp_all

/-- Witness for C5 on the spec's example `multiplier=60, fixed=false,
state=WARNING, level=10, critical=5`: delay `(10-5)*60 = 300`. -/
theorem C5_witness :
    defaultConfig.fixed = false ∧
    (stepLoop defaultConfig ⟨10, true, false⟩ true BState.AC).state = BState.Warning ∧
    (stepLoop defaultConfig ⟨10, true, false⟩ true BState.AC).duration = 300 :=
  ⟨rfl, by decide,
    (((C5_scheduler_delay defaultConfig ⟨10, true, false⟩ true BState.AC).2 rfl).1
      (by decide)).trans (by decide)⟩

/-- C6: dispatch is edge-triggered.  In any run, if two consecutive cycles
compute the same state and the discharging flag did not flip between their
snapshots, the second cycle fires no notification and no danger command. -/
theorem C6_edge_triggered (cfg : Config) (s0 : BState) (d0 : Bool) :
    ∀ (snaps : List Snapshot) (i : Nat) (r r' : StepResult) (sn sn' : Snapshot),
    (runLoop cfg s0 d0 snaps).get? i = some r →
    (runLoop cfg s0 d0 snaps).get? (i+1) = some r' →
    snaps.get? i = some sn →
    snaps.get? (i+1) = some sn' →
    r'.state = r.state →
    sn'.battery_discharging = sn.battery_discharging →
    fired r'.actions = [] := by
  intro snaps
  induction snaps generalizing s0 d0 with
  | nil => intro i r r' sn sn' h1 _ _ _ _ _; simp [runLoop] at h1
  | cons snap rest ih =>
    intro i r r' sn sn' h1 h2 h3 h4 h5 h6
    match i with
    | 0 =>
      simp only [runLoop, List.get?] at h1 h2 h3 h4
      have hr : r = stepLoop cfg snap d0 s0 := by simpa using h1.symm
      have hsn : sn = snap := by simpa using h3.symm
      match rest, h2, h4 with
      | [], h2, h4 => simp [runLoop] at h2
      | sn2 :: rest2, h2, h4 =>
        simp only [runLoop, List.get?] at h2 h4
        have hr' : r' = stepLoop cfg sn2 snap.battery_discharging
            (stepLoop cfg snap d0 s0).state := by simpa using h2.symm
        have hsn' : sn' = sn2 := by simpa using h4.symm
        subst hr hr' hsn hsn'
        exact stepLoop_steady _ _ _ _ h5 h6
    | Nat.succ j =>
      simp only [runLoop, List.get?] at h1 h2 h3 h4
      exact ih (stepLoop cfg snap d0 s0).state snap.battery_discharging j r r' sn sn' h1 h2 h3
        h4 h5 h6

/-- Witness for C6 on the spec's end-to-end example, config `warning=15,
critical=5, danger=2, full=0` and snapshots level 20, 14, 14 (discharging):
cycle 2 enters WARNING and dispatches the warning message exactly once;
cycle 3 recomputes WARNING with no flag flip and dispatches nothing. -/
theorem C6_witness :
    (runLoop defaultConfig BState.AC true
        [⟨20, true, false⟩, ⟨14, true, false⟩, ⟨14, true, false⟩]).get? 1 =
      some ⟨BState.Warning, [Action.notifyWarning], 540⟩ ∧
    fired (StepResult.mk BState.Warning [] 540).actions = [] :=
  ⟨by decide,
    C6_edge_triggered defaultConfig BState.AC true
      [⟨20, true, false⟩, ⟨14, true, false⟩, ⟨14, true, false⟩] 1
      ⟨BState.Warning, [Action.notifyWarning], 540⟩ ⟨BState.Warning, [], 540⟩
      ⟨14, true, false⟩ ⟨14, true, false⟩ (by decide) (by decide) (by decide) (by decide)
      rfl rfl⟩

/-- C7 counterexample: with `warning=0, critical=0, danger=50, full=30,
multiplier=60` the code rejects (the `lowlvl` fallback compares full against
danger), while the claim's exhaustive failure condition does not hold — so
validation does not fail "exactly when" the claim's conditions hold. -/
theorem C7_counterexample :
    validate_options 0 0 50 30 60 = false ∧ ¬ claimRejects 0 0 50 30 60 :=
  ⟨rfl, by norm_num [claimRejects, highestNonzero]⟩

set_option maxHeartbeats 1000000 in
/-- C7 amended: startup validation fails exactly when a threshold is outside
0..100, warning and critical are both nonzero with `warning <= critical`,
critical and danger are both nonzero with `critical <= danger`, full is
nonzero and does not exceed the highest nonzero of warning/critical, the
poll interval is outside [0, 3600], or — the case the claim omits — warning
and critical are both zero and the nonzero full does not exceed danger. -/
theorem C7_amended_validation (warning critical danger full multiplier : Int) :
    validate_options warning critical danger full multiplier = false ↔
      amendedRejects warning critical danger full multiplier := by
  simp only [validate_options, amendedRejects, claimRejects, highestNonzero]
  split_ifs <;>
    simp only [eq_self_iff_true, true_iff, Bool.true_eq_false, false_iff] <;>
    omega

/-- C8 counterexample: with `warning=10, critical=0, danger=0, fixed` unset
and `multiplier=60`, a discharging snapshot at level 0 is classified WARNING
and the computed delay is `(0 - 0) * 60 = 0` — the delay is not floored at a
positive value. -/
theorem C8_counterexample :
    (stepLoop ⟨10, 0, 0, 0, 60, false, false, false⟩ ⟨0, true, false⟩ true BState.AC).state =
      BState.Warning ∧
    (stepLoop ⟨10, 0, 0, 0, 60, false, false, false⟩ ⟨0, true, false⟩ true BState.AC).duration =
      0 := by
  decide

/-- C8 amended: the computed delay is never negative in any state, level and
configuration; and whenever the computed state is WARNING with a nonzero
critical threshold the delay is at least `multiplier` (so positive whenever
`multiplier` is), because `level > critical` is then guaranteed.  The delay
can reach zero when the relevant lower threshold is disabled (0). -/
theorem C8_amended_delay (cfg : Config) (snap : Snapshot) (pd : Bool) (ps : BState) :
    0 ≤ (stepLoop cfg snap pd ps).duration ∧
    ((stepLoop cfg snap pd ps).state = BState.Warning → cfg.critical ≠ 0 →
      (cfg.multiplier : Int) ≤ (stepLoop cfg snap pd ps).duration) := by
  simp only [stepLoop]
  split_ifs <;> refine ⟨?_, ?_⟩ <;> try simp_all
  all_goals try exact mul_nonneg (by omega) (Int.natCast_nonneg _)
  all_goals intro hc
  all_goals exact le_mul_of_one_le_left (Int.natCast_nonneg _) (by omega)

/-- Witness for C8 amended at the default config, discharging at level 10
(state WARNING, critical 5 nonzero): the delay is nonnegative and at least
the multiplier. -/
theorem C8_witness :
    0 ≤ (stepLoop defaultConfig ⟨10, true, false⟩ true BState.AC).duration ∧
    (defaultConfig.multiplier : Int) ≤
      (stepLoop defaultConfig ⟨10, true, false⟩ true BState.AC).duration :=
  ⟨(C8_amended_delay defaultConfig ⟨10, true, false⟩ true BState.AC).1,
    (C8_amended_delay defaultConfig ⟨10, true, false⟩ true BState.AC).2 (by decide) (by decide)⟩

/-- C9 counterexample: a single device reporting `now=200, full=100`
aggregates to level `round(100*200/100) = 200`, far outside 0..100 — the
code never clamps the level. -/
theorem C9_counterexample :
    update_batteries false false [⟨some PsStatus.statusDischarging, some 200, some 100⟩] =
      Except.ok ⟨200, true, false, 200, 100⟩ ∧
    ¬ (AggResult.mk 200 true false 200 100).battery_level ≤ 100 :=
  ⟨rfl, by decide⟩

/-- C9 amended: whenever aggregation succeeds with positive total capacity
and the summed now-values do not exceed the summed full-values, the level is
an integer in 0..100 (the lower bound is inherent to the natural-number
model); without the `energy_now <= energy_full` premise, the unclamped
`round(100 * energy_now / energy_full)` can exceed 100. -/
theorem C9_amended_level_range (required percentOnly : Bool) (reads : List DeviceRead)
    (res : AggResult)
    (h : update_batteries required percentOnly reads = Except.ok res)
    (hle : res.energy_now ≤ res.energy_full) (hpos : 0 < res.energy_full) :
    res.battery_level ≤ 100 := by
  simp only [update_batteries] at h
  cases hfold : List.foldlM (updateOne required percentOnly) ⟨false, true, 0, 0⟩ reads with
  | error e => rw [hfold] at h; simp at h
  | ok acc =>
    rw [hfold] at h
    simp only [Except.ok.injEq] at h
    subst h
    exact roundPct_le_100 _ _ hpos hle

/-- Witness for C9 amended on two devices `(now=50, full=100)` and
`(now=30, full=100)`: the level 40 is at most 100. -/
theorem C9_witness :
    (AggResult.mk 40 false false 80 200).battery_level ≤ 100 :=
  C9_amended_level_range false false
    [⟨some PsStatus.statusOther, some 50, some 100⟩,
      ⟨some PsStatus.statusOther, some 30, some 100⟩]
    ⟨40, false, false, 80, 200⟩ rfl (by decide) (by decide)

/-- C10 (implicit): passing `-f LEVEL` or `-p` also sets `fixed = true`, so
with either option the scheduler's computed delay is always exactly
`multiplier` and the adaptive shortening never applies. -/
theorem C10_full_or_charging_msg_forces_fixed (cfg : Config) (opts : List Opt)
    (h : (∃ lvl, Opt.f lvl ∈ opts) ∨ Opt.p ∈ opts) :
    (parse_args cfg opts).fixed = true ∧
    ∀ (snap : Snapshot) (pd : Bool) (ps : BState),
      (stepLoop (parse_args cfg opts) snap pd ps).duration =
        ((parse_args cfg opts).multiplier : Int) := by
  have hfix : (parse_args cfg opts).fixed = true := by
    induction opts generalizing cfg with
    | nil =>
      rcases h with ⟨lvl, hl⟩ | hp
      · simp at hl
      · simp at hp
    | cons o rest ih =>
      show (parse_args (applyOpt cfg o) rest).fixed = true
      rcases h with ⟨lvl, hl⟩ | hp
      · rcases List.mem_cons.mp hl with rfl | hmem
        · exact parse_args_keeps_fixed rest _ (by simp [applyOpt])
        · exact ih _ (Or.inl ⟨lvl, hmem⟩)
      · rcases List.mem_cons.mp hp with heq | hmem
        · exact parse_args_keeps_fixed rest _ (by rw [← heq]; simp [applyOpt])
        · exact ih _ (Or.inr hmem)
  exact ⟨hfix, fun snap pd ps => stepLoop_fixed_duration _ hfix snap pd ps⟩

/-- Witness for C10: option list `[-p]` on the default config yields
`fixed = true`, and a discharging snapshot at level 10 (which without `-p`
would shorten the delay to 300) sleeps the full multiplier. -/
theorem C10_witness :
    (parse_args defaultConfig [Opt.p]).fixed = true ∧
    (stepLoop (parse_args defaultConfig [Opt.p]) ⟨10, true, false⟩ true BState.AC).duration =
      ((parse_args defaultConfig [Opt.p]).multiplier : Int) :=
  ⟨(C10_full_or_charging_msg_forces_fixed defaultConfig [Opt.p] (Or.inr (by decide))).1,
    (C10_full_or_charging_msg_forces_fixed defaultConfig [Opt.p] (Or.inr (by decide))).2
      ⟨10, true, false⟩ true BState.AC⟩

end Batsignal
